import Mathlib

/-!
Shallow embedding of the `streamlit-naval-ops` core pipeline
(`naval_ops/bathymetry.py`, `naval_ops/collector.py`, `naval_ops/planner.py`,
`naval_ops/analyzer.py`), with verification of the spec's claims about it.

Numbers are modelled as exact rationals (`ℚ`).  Python `dict.get(k, d)` on a
possibly-missing numeric field is modelled as `Option ℚ` with `Option.getD`;
the Python idiom `x.get(k, d) or d` (which also replaces a falsy `0`/`None`
value by `d`) is modelled by `pyOr`.  External HTTP fetches are modelled as
explicit function parameters; the bathymetry fetch outcome is an inductive
covering every failure shape the code distinguishes.
-/

namespace NavalOps

/-- Python `x or d` applied to an optional numeric field: a missing value or a
value equal to `0` falls back to the default `d`. -/
def pyOr (o : Option ℚ) (d : ℚ) : ℚ :=
  match o with
  | none => d
  | some x => if x = 0 then d else x

/-- Round-half-to-even on rationals, the rounding Python's float formatting and
`round` use at a decimal boundary. -/
def roundHalfEven (x : ℚ) : ℤ :=
  let f := ⌊x⌋
  let frac := x - (f : ℚ)
  if frac < 1/2 then f
  else if 1/2 < frac then f + 1
  else if f % 2 = 0 then f else f + 1

/-! ## bathymetry.py -/

/-- Conversion constant `M_TO_FT = 3.28084` from `bathymetry.py`. -/
def M_TO_FT : ℚ := 328084 / 100000

/-- The `BathymetryResult` dataclass of `bathymetry.py` (equivalently its
`to_dict` image, which carries the same five fields). -/
structure BathymetryResult where
  depth_m : Option ℚ
  depth_ft : Option ℚ
  is_ocean : Bool
  estimated : Bool
  source : String
deriving DecidableEq

/-- The elevation value found at `results[0]["elevation"]` of the OpenTopoData
payload: absent (`None`), a float NaN, or an actual number. -/
inductive Elevation where
  | missing
  | nan
  | num (x : ℚ)
deriving DecidableEq

/-- Outcome of the external OpenTopoData request in
`BathymetryService.get_bathymetry`: a hard failure (network error, HTTP error
status, malformed JSON), or a payload whose `results` list parsed. -/
inductive FetchOutcome where
  | err
  | ok (results : List Elevation)
deriving DecidableEq

/-- The fallback `BathymetryResult` built in the `except` branch of
`get_bathymetry`. -/
def fallbackResult : BathymetryResult :=
  { depth_m := some 50
    depth_ft := some (50 * M_TO_FT)
    is_ocean := true
    estimated := true
    source := "Fallback estimate" }

/-- The `try`/`except` body of `BathymetryService.get_bathymetry` (everything
between the cache lookup and the cache store): empty `results`, a missing or
NaN elevation, and a failed request all land in the `except` branch; a numeric
elevation is classified by its sign. -/
def computeBathymetry (o : FetchOutcome) : BathymetryResult :=
  match o with
  | .err => fallbackResult
  | .ok [] => fallbackResult
  | .ok (.missing :: _) => fallbackResult
  | .ok (.nan :: _) => fallbackResult
  | .ok (.num elev_m :: _) =>
      if elev_m < 0 then
        let depth_m := |elev_m|
        { depth_m := some depth_m
          depth_ft := some (depth_m * M_TO_FT)
          is_ocean := true
          estimated := false
          source := "OpenTopoData GEBCO2020" }
      else
        { depth_m := some 0
          depth_ft := some 0
          is_ocean := false
          estimated := false
          source := "OpenTopoData GEBCO2020" }

/-- The fetch outcomes that take the `except` branch of `get_bathymetry`. -/
def fetchFailed : FetchOutcome → Prop
  | .err => True
  | .ok [] => True
  | .ok (.missing :: _) => True
  | .ok (.nan :: _) => True
  | .ok (.num _ :: _) => False

instance (o : FetchOutcome) : Decidable (fetchFailed o) := by
  unfold fetchFailed
  cases o with
  | err => exact inferInstance
  | ok results =>
    cases results with
    | nil => exact inferInstance
    | cons e rest => cases e <;> exact inferInstance

/-- The coordinate component of the cache key `f"{lat:.5f},{lon:.5f}"`:
rounding to five decimal places. -/
def round5 (x : ℚ) : ℚ := (roundHalfEven (x * 100000) : ℚ) / 100000

/-- Association-list lookup used to model the `self._cache` dict. -/
def cacheLookup (key : ℚ × ℚ) : List ((ℚ × ℚ) × BathymetryResult) → Option BathymetryResult
  | [] => none
  | (k, v) :: rest => if k = key then some v else cacheLookup key rest

/-- Embedding of `BathymetryService.get_bathymetry`, with the external request abstracted as
`fetch` and the cache passed explicitly.  Returns the result, the updated
cache, and whether an external fetch was performed. -/
def get_bathymetry (fetch : ℚ → ℚ → FetchOutcome)
    (cache : List ((ℚ × ℚ) × BathymetryResult)) (lat lon : ℚ) :
    BathymetryResult × List ((ℚ × ℚ) × BathymetryResult) × Bool :=
  let key := (round5 lat, round5 lon)
  match cacheLookup key cache with
  | some r => (r, cache, false)
  | none =>
      let out := computeBathymetry (fetch lat lon)
      (out, (key, out) :: cache, true)

end NavalOps

namespace NavalOps

/-- C4: whenever the bathymetry fetch fails (network error, empty results,
missing or NaN elevation), the `except` branch yields exactly the fallback
record `depth_m = 50`, `depth_ft = 50 · 3.28084`, `is_ocean = true`,
`estimated = true`, `source = "Fallback estimate"`; at the service level, any
call that actually performs a failing fetch (a cache miss) returns that same
record, and the embedding is a total function, so no exception escapes. -/
theorem c4_bathymetry_fallback (o : FetchOutcome) (h : fetchFailed o)
    (fetch : ℚ → ℚ → FetchOutcome) (cache : List ((ℚ × ℚ) × BathymetryResult))
    (lat lon : ℚ) (hfail : fetchFailed (fetch lat lon))
    (hmiss : cacheLookup (round5 lat, round5 lon) cache = none) :
    computeBathymetry o = fallbackResult ∧
    (get_bathymetry fetch cache lat lon).1 = fallbackResult ∧
    fallbackResult.depth_m = some 50 ∧
    fallbackResult.depth_ft = some (50 * (328084 / 100000)) ∧
    fallbackResult.is_ocean = true ∧
    fallbackResult.estimated = true ∧
    fallbackResult.source = "Fallback estimate" := by
  have hco : ∀ o', fetchFailed o' → computeBathymetry o' = fallbackResult := by
    intro o' h'
    match o' with
    | .err => rfl
    | .ok [] => rfl
    | .ok (.missing :: _) => rfl
    | .ok (.nan :: _) => rfl
    | .ok (.num _ :: _) => exact absurd h' (by simp [fetchFailed])
  refine ⟨hco o h, ?_, rfl, rfl, rfl, rfl, rfl⟩
  simp only [get_bathymetry, hmiss]
  exact hco _ hfail

/-- C4 witness: a plain network error on a cold cache produces the fallback
record. -/
theorem c4_witness :
    computeBathymetry .err = fallbackResult ∧
    (get_bathymetry (fun _ _ => .err) [] 0 0).1 = fallbackResult ∧
    fallbackResult.depth_m = some 50 ∧
    fallbackResult.depth_ft = some (50 * (328084 / 100000)) ∧
    fallbackResult.is_ocean = true ∧
    fallbackResult.estimated = true ∧
    fallbackResult.source = "Fallback estimate" :=
  c4_bathymetry_fallback .err (by decide) (fun _ _ => .err) [] 0 0 (by decide)
    (by decide)

/-- C9: within one service instance, a second `get_bathymetry` call whose
coordinates round to the same 5-decimal-place cache key returns the same
result as the first call and performs no external fetch. -/
theorem c9_cache_hit (fetch : ℚ → ℚ → FetchOutcome)
    (cache : List ((ℚ × ℚ) × BathymetryResult)) (lat1 lon1 lat2 lon2 : ℚ)
    (hlat : round5 lat2 = round5 lat1) (hlon : round5 lon2 = round5 lon1) :
    (get_bathymetry fetch (get_bathymetry fetch cache lat1 lon1).2.1 lat2 lon2).1 =
      (get_bathymetry fetch cache lat1 lon1).1 ∧
    (get_bathymetry fetch (get_bathymetry fetch cache lat1 lon1).2.1 lat2 lon2).2.2 =
      false := by
  unfold get_bathymetry
  rw [hlat, hlon]
  cases hc : cacheLookup (round5 lat1, round5 lon1) cache with
  | some r => simp [hc]
  | none => simp [hc, cacheLookup]

/-- C9 witness: two coordinates that agree to five decimals hit the cache on
the second call. -/
theorem c9_witness :
    (get_bathymetry (fun _ _ => .ok [.num (-10)])
        (get_bathymetry (fun _ _ => .ok [.num (-10)]) [] (1/1000000) 0).2.1
        (2/1000000) 0).1 =
      (get_bathymetry (fun _ _ => .ok [.num (-10)]) [] (1/1000000) 0).1 ∧
    (get_bathymetry (fun _ _ => .ok [.num (-10)])
        (get_bathymetry (fun _ _ => .ok [.num (-10)]) [] (1/1000000) 0).2.1
        (2/1000000) 0).2.2 = false :=
  c9_cache_hit (fun _ _ => .ok [.num (-10)]) [] (1/1000000) 0 (2/1000000) 0
    (by with_unfolding_all decide) (by with_unfolding_all decide)

/-! ## planner.py

The spherical initial-bearing formula of `calculate_bearing` is transcendental
(sines, cosines, `atan2`), so the bearing value `A → B` enters the embedding
of `build_derived_geometry` as an explicit parameter `bearingAB`; everything
derived from it is exact rational arithmetic with Python's float `%`
(sign-of-divisor remainder), modelled by `qmod`. -/

/-- Python's `x % m` on floats for a positive modulus `m`: the representative
of `x` in `[0, m)`. -/
def qmod (x m : ℚ) : ℚ := x - m * ⌊x / m⌋

/-- Function `calculate_midpoint` from `planner.py`: plain arithmetic averages. -/
def calculate_midpoint (lat1 lon1 lat2 lon2 : ℚ) : ℚ × ℚ :=
  ((lat1 + lat2) / 2, (lon1 + lon2) / 2)

/-- Function `calculate_perpendicular_bearing` from `planner.py`: 90 degrees
clockwise. -/
def calculate_perpendicular_bearing (bearing : ℚ) : ℚ := qmod (bearing + 90) 360

/-- The geometry fields `build_derived_geometry` adds to the inputs dict. -/
structure DerivedGeometry where
  center_lat : ℚ
  center_lon : ℚ
  direction_of_attack : ℚ
  sector_min_bearing : ℚ
  sector_max_bearing : ℚ
deriving DecidableEq

/-- Function `build_derived_geometry` from `planner.py`, with the initial bearing
`A → B` supplied as the parameter `bearingAB` (in the source it is
`calculate_bearing(a, b)`). -/
def build_derived_geometry (bearingAB : ℚ) (alat alon blat blon : ℚ) :
    DerivedGeometry :=
  let mid := calculate_midpoint alat alon blat blon
  let doa := calculate_perpendicular_bearing bearingAB
  { center_lat := mid.1
    center_lon := mid.2
    direction_of_attack := doa
    sector_min_bearing := qmod (doa - 90) 360
    sector_max_bearing := qmod (doa + 90) 360 }

/-- Subtracting an integer multiple of 360 does not change the value of
`qmod · 360`. -/
theorem qmod_sub_int_mul_360 (x : ℚ) (k : ℤ) :
    qmod (x - 360 * k) 360 = qmod x 360 := by
  unfold qmod
  have hdiv : (x - 360 * (k : ℚ)) / 360 = x / 360 - (k : ℚ) := by ring
  rw [hdiv, Int.floor_sub_int]
  push_cast
  ring

/-- C3: the derived geometry consists of the arithmetic midpoint of the two
boundary points, a direction of attack 90° clockwise of the lateral bearing,
and a sector `(doa − 90, doa + 90) mod 360`; consequently the sector spans
exactly 180°: `sector_max = (sector_min + 180) mod 360`. -/
theorem c3_derived_geometry (bearingAB alat alon blat blon : ℚ) :
    (build_derived_geometry bearingAB alat alon blat blon).center_lat =
      (alat + blat) / 2 ∧
    (build_derived_geometry bearingAB alat alon blat blon).center_lon =
      (alon + blon) / 2 ∧
    (build_derived_geometry bearingAB alat alon blat blon).direction_of_attack =
      qmod (bearingAB + 90) 360 ∧
    (build_derived_geometry bearingAB alat alon blat blon).sector_min_bearing =
      qmod ((build_derived_geometry bearingAB alat alon blat blon).direction_of_attack - 90) 360 ∧
    (build_derived_geometry bearingAB alat alon blat blon).sector_max_bearing =
      qmod ((build_derived_geometry bearingAB alat alon blat blon).direction_of_attack + 90) 360 ∧
    (build_derived_geometry bearingAB alat alon blat blon).sector_max_bearing =
      qmod ((build_derived_geometry bearingAB alat alon blat blon).sector_min_bearing + 180) 360 := by
  refine ⟨rfl, rfl, rfl, rfl, rfl, ?_⟩
  show qmod (calculate_perpendicular_bearing bearingAB + 90) 360 =
    qmod (qmod (calculate_perpendicular_bearing bearingAB - 90) 360 + 180) 360
  set d := calculate_perpendicular_bearing bearingAB with hd
  have hmin : qmod (d - 90) 360 + 180 = (d + 90) - 360 * (⌊(d - 90) / 360⌋ : ℚ) := by
    unfold qmod; ring
  rw [hmin]
  exact (qmod_sub_int_mul_360 (d + 90) ⌊(d - 90) / 360⌋).symm

/-! ## collector.py — grid generation

`NavalDataCollector.calculate_bearing` is the same transcendental formula as
the planner's, so the bearing from the center to a candidate point enters
`generate_grid_points` as a function parameter `bearingFn`.  The comparison
`sqrt(dlat² + dlon²) <= radius_deg` of the source is embedded without the
square root as `dlat² + dlon² ≤ radius_deg² ∧ 0 ≤ radius_deg`, which
`dist_guard_iff` proves equivalent over the reals. -/

/-- A raw grid lattice coordinate. -/
structure GridPoint where
  lat : ℚ
  lon : ℚ
deriving DecidableEq

/-- Predicate `NavalDataCollector._is_in_sector` applied to an already computed bearing:
wraparound membership when `min_bearing > max_bearing`, plain interval
membership otherwise. -/
def is_in_sector (bearing_to_point min_bearing max_bearing : ℚ) : Bool :=
  if min_bearing > max_bearing then
    bearing_to_point ≥ min_bearing || bearing_to_point ≤ max_bearing
  else
    min_bearing ≤ bearing_to_point && bearing_to_point ≤ max_bearing

/-- Values taken by a Python loop `while v <= hi: ...; v += s` started at
`lo`, for a positive step `s` (with a non-positive step the source loop would
not terminate). -/
def whileVals (lo hi s : ℚ) : List ℚ :=
  if 0 < s then
    (List.range (⌊(hi - lo) / s⌋ + 1).toNat).map (fun k => lo + (k : ℚ) * s)
  else []

/-- Embedding of `NavalDataCollector.generate_grid_points`: a square lattice of side
`2·radius_deg` around the center at `spacing_deg` steps, filtered to the
points within `radius_deg` (Euclidean, in degree space) of the center whose
bearing from the center lies in the configured sector. -/
def generate_grid_points (bearingFn : ℚ → ℚ → ℚ → ℚ → ℚ)
    (center_lat center_lon radius_nm grid_spacing_nm min_sector max_sector : ℚ) :
    List GridPoint :=
  let radius_deg := radius_nm * 1 / 60
  let spacing_deg := grid_spacing_nm * 1 / 60
  (whileVals (center_lat - radius_deg) (center_lat + radius_deg) spacing_deg).flatMap
    fun lat =>
      (whileVals (center_lon - radius_deg) (center_lon + radius_deg) spacing_deg).filterMap
        fun lon =>
          if ((lat - center_lat) ^ 2 + (lon - center_lon) ^ 2 ≤ radius_deg ^ 2 ∧
                0 ≤ radius_deg) ∧
              is_in_sector (bearingFn center_lat center_lon lat lon) min_sector max_sector
                = true then
            some ⟨lat, lon⟩
          else none

/-- The embedded distance guard is exactly the source's
`sqrt(d) <= radius_deg` over the reals, for the nonnegative `d` it is applied
to. -/
theorem dist_guard_iff (d r : ℚ) (hd : 0 ≤ d) :
    (d ≤ r ^ 2 ∧ 0 ≤ r) ↔ Real.sqrt (d : ℝ) ≤ (r : ℝ) := by
  constructor
  · rintro ⟨hle, hr⟩
    have h1 : Real.sqrt (d : ℝ) ≤ Real.sqrt ((r : ℝ) ^ 2) := by
      apply Real.sqrt_le_sqrt
      exact_mod_cast hle
    have h2 : Real.sqrt ((r : ℝ) ^ 2) = (r : ℝ) := by
      rw [Real.sqrt_sq (by exact_mod_cast hr)]
    rw [h2] at h1
    exact h1
  · intro h
    have hr : (0 : ℝ) ≤ (r : ℝ) := le_trans (Real.sqrt_nonneg _) h
    have hd' : (0 : ℝ) ≤ (d : ℝ) := by exact_mod_cast hd
    have hsq : (d : ℝ) ≤ (r : ℝ) ^ 2 := by
      have := Real.sq_sqrt hd'
      nlinarith [Real.sqrt_nonneg (d : ℝ)]
    exact ⟨by exact_mod_cast hsq, by exact_mod_cast hr⟩

/-- C2: every point returned by grid generation lies within `radius_nm / 60`
of the center in Euclidean degree space, and its bearing from the center (as
computed by the supplied bearing function) passes the sector test — plain
interval membership `[sector_min, sector_max]` when `sector_min ≤ sector_max`,
and the wraparound disjunction `bearing ≥ sector_min ∨ bearing ≤ sector_max`
when `sector_min > sector_max`; in particular, for the wrapped sector
`[300°, 60°]` a bearing of 350° is accepted and a bearing of 150° is
rejected. -/
theorem c2_grid_generation (bearingFn : ℚ → ℚ → ℚ → ℚ → ℚ)
    (center_lat center_lon radius_nm grid_spacing_nm min_sector max_sector : ℚ)
    (p : GridPoint)
    (hp : p ∈ generate_grid_points bearingFn center_lat center_lon radius_nm
        grid_spacing_nm min_sector max_sector) :
    (Real.sqrt (((p.lat : ℝ) - (center_lat : ℝ)) ^ 2 +
        ((p.lon : ℝ) - (center_lon : ℝ)) ^ 2) ≤ (radius_nm : ℝ) / 60) ∧
    (is_in_sector (bearingFn center_lat center_lon p.lat p.lon) min_sector max_sector
        = true) ∧
    (min_sector ≤ max_sector →
      min_sector ≤ bearingFn center_lat center_lon p.lat p.lon ∧
        bearingFn center_lat center_lon p.lat p.lon ≤ max_sector) ∧
    (max_sector < min_sector →
      bearingFn center_lat center_lon p.lat p.lon ≥ min_sector ∨
        bearingFn center_lat center_lon p.lat p.lon ≤ max_sector) ∧
    is_in_sector 350 300 60 = true ∧ is_in_sector 150 300 60 = false := by
  simp only [generate_grid_points, List.mem_flatMap, List.mem_filterMap] at hp
  obtain ⟨lat, -, lon, -, hif⟩ := hp
  set b := bearingFn center_lat center_lon lat lon with hb
  by_cases hg : ((lat - center_lat) ^ 2 + (lon - center_lon) ^ 2 ≤
        (radius_nm * 1 / 60) ^ 2 ∧ 0 ≤ radius_nm * 1 / 60) ∧
      is_in_sector b min_sector max_sector = true
  · rw [if_pos hg] at hif
    obtain ⟨⟨hdist, hrad⟩, hsec⟩ := hg
    cases hif
    have hd0 : (0 : ℚ) ≤ (lat - center_lat) ^ 2 + (lon - center_lon) ^ 2 := by positivity
    have hsqrt := (dist_guard_iff _ _ hd0).mp ⟨hdist, hrad⟩
    refine ⟨?_, hsec, ?_, ?_, by decide, by decide⟩
    · have hcast : (((((lat : ℚ) - center_lat) ^ 2 + ((lon : ℚ) - center_lon) ^ 2 : ℚ)) : ℝ) =
          ((lat : ℝ) - (center_lat : ℝ)) ^ 2 + ((lon : ℝ) - (center_lon : ℝ)) ^ 2 := by
        push_cast; ring
      have hrc : ((radius_nm * 1 / 60 : ℚ) : ℝ) = (radius_nm : ℝ) / 60 := by
        push_cast; ring
      rw [hcast, hrc] at hsqrt
      exact hsqrt
    · intro hle
      unfold is_in_sector at hsec
      rw [if_neg (not_lt.mpr hle)] at hsec
      simpa using hsec
    · intro hlt
      unfold is_in_sector at hsec
      rw [if_pos hlt] at hsec
      simpa [ge_iff_le] using hsec
  · rw [if_neg hg] at hif
    cases hif

/-- C2 witness: with a full sector and a constant bearing function, the
origin belongs to a 60 nm grid around itself, so the theorem's guarantees
hold there. -/
theorem c2_witness :
    (Real.sqrt ((((GridPoint.mk 0 0).lat : ℝ) - ((0 : ℚ) : ℝ)) ^ 2 +
        (((GridPoint.mk 0 0).lon : ℝ) - ((0 : ℚ) : ℝ)) ^ 2) ≤ ((60 : ℚ) : ℝ) / 60) ∧
    (is_in_sector ((fun _ _ _ _ => (0 : ℚ)) 0 0 (GridPoint.mk 0 0).lat
        (GridPoint.mk 0 0).lon) 0 360 = true) ∧
    ((0 : ℚ) ≤ 360 →
      (0 : ℚ) ≤ (fun _ _ _ _ => (0 : ℚ)) 0 0 (GridPoint.mk 0 0).lat (GridPoint.mk 0 0).lon ∧
        (fun _ _ _ _ => (0 : ℚ)) 0 0 (GridPoint.mk 0 0).lat (GridPoint.mk 0 0).lon ≤ 360) ∧
    ((360 : ℚ) < 0 →
      (fun _ _ _ _ => (0 : ℚ)) 0 0 (GridPoint.mk 0 0).lat (GridPoint.mk 0 0).lon ≥ 0 ∨
        (fun _ _ _ _ => (0 : ℚ)) 0 0 (GridPoint.mk 0 0).lat (GridPoint.mk 0 0).lon ≤ 360) ∧
    is_in_sector 350 300 60 = true ∧ is_in_sector 150 300 60 = false :=
  c2_grid_generation (fun _ _ _ _ => 0) 0 0 60 60 0 360 ⟨0, 0⟩
    (by with_unfolding_all decide)

/-! ## collector.py — the collection loop

`NavalDataCollector.collect` geocodes the center, fetches one regional
weather snapshot, generates the grid, and then runs the per-point loop of
lines 251–293.  The loop is embedded as `processPoints`, with the external
sources (`get_marine_data`, the bathymetry fetch) and the transcendental
haversine distance as function parameters; it also records, per point, which
external lookups the code invokes and in which order. -/

/-- The `current` weather block returned by `get_regional_weather` (fields of
the Open-Meteo forecast payload). -/
structure Weather where
  temperature_2m : Option ℚ := none
  relative_humidity_2m : Option ℚ := none
  precipitation : Option ℚ := none
  weather_code : Option ℚ := none
  cloud_cover : Option ℚ := none
  visibility : Option ℚ := none
  wind_speed_10m : Option ℚ := none
  wind_direction_10m : Option ℚ := none
  wind_gusts_10m : Option ℚ := none
deriving DecidableEq

/-- The `current` marine block returned by `get_marine_data`. -/
structure Marine where
  wave_height : Option ℚ := none
  wave_direction : Option ℚ := none
  wave_period : Option ℚ := none
  wind_wave_height : Option ℚ := none
  swell_wave_height : Option ℚ := none
  ocean_current_velocity : Option ℚ := none
  ocean_current_direction : Option ℚ := none
deriving DecidableEq

/-- One record of the `analyzed_points` list built by `collect`. -/
structure EnrichedPoint where
  lat : ℚ
  lon : ℚ
  weather : Weather
  marine : Option Marine
  bathymetry : BathymetryResult
  distance_from_center_nm : ℚ
  distance_from_target_nm : Option ℚ
deriving DecidableEq

/-- The running counters of `CollectorStats` that the loop updates. -/
structure CollectStats where
  ocean_points : ℕ
  land_points : ℕ
deriving DecidableEq

/-- One increment of the `stats.bathy_sources` histogram. -/
def bumpSource (hist : List (String × ℕ)) (s : String) : List (String × ℕ) :=
  match hist with
  | [] => [(s, 1)]
  | (k, n) :: rest => if k = s then (k, n + 1) :: rest else (k, n) :: bumpSource rest s

/-- An external per-point lookup performed by the collection loop. -/
inductive FetchEvent where
  | marineFetch (lat lon : ℚ)
  | bathyFetch (lat lon : ℚ)
deriving DecidableEq

/-- Result of running the collection loop. -/
structure CollectRun where
  analyzed_points : List EnrichedPoint
  cache : List ((ℚ × ℚ) × BathymetryResult)
  stats : CollectStats
  hist : List (String × ℕ)
  trace : List FetchEvent
deriving DecidableEq

/-- The per-point loop of `NavalDataCollector.collect` (lines 251–293): for
each grid point it first calls `get_marine_data`, then
`bathy_service.get_bathymetry`, bumps the source histogram, and either counts
a land point and skips, or counts an ocean point and appends the enriched
record.  `distTarget` is `some` exactly when the run has a resolved target.
`trace` lists the per-point external lookups in invocation order. -/
def processPoints (getMarine : ℚ → ℚ → Option Marine)
    (fetch : ℚ → ℚ → FetchOutcome) (distCenter : ℚ → ℚ → ℚ)
    (distTarget : Option (ℚ → ℚ → ℚ)) (region_weather : Weather) :
    List GridPoint → List ((ℚ × ℚ) × BathymetryResult) → CollectStats →
      List (String × ℕ) → CollectRun
  | [], cache, stats, hist =>
      { analyzed_points := [], cache := cache, stats := stats, hist := hist,
        trace := [] }
  | point :: rest, cache, stats, hist =>
      let marine := getMarine point.lat point.lon
      let bres := get_bathymetry fetch cache point.lat point.lon
      let bathy := bres.1
      let hist' := bumpSource hist bathy.source
      if bathy.is_ocean = false then
        let r := processPoints getMarine fetch distCenter distTarget region_weather
          rest bres.2.1 { stats with land_points := stats.land_points + 1 } hist'
        { r with trace := .marineFetch point.lat point.lon ::
            .bathyFetch point.lat point.lon :: r.trace }
      else
        let point_data : EnrichedPoint :=
          { lat := point.lat
            lon := point.lon
            weather := region_weather
            marine := marine
            bathymetry := bathy
            distance_from_center_nm := distCenter point.lat point.lon
            distance_from_target_nm := distTarget.map fun f => f point.lat point.lon }
        let r := processPoints getMarine fetch distCenter distTarget region_weather
          rest bres.2.1 { stats with ocean_points := stats.ocean_points + 1 } hist'
        { r with
            analyzed_points := point_data :: r.analyzed_points
            trace := .marineFetch point.lat point.lon ::
              .bathyFetch point.lat point.lon :: r.trace }

/-- C1: every record appended to `analyzed_points` by the collection loop has
`bathymetry.is_ocean = true`; a grid point whose bathymetry reports non-ocean
is counted in `land_points` and skipped, so no land point reaches the
scorer. -/
theorem c1_analyzed_points_are_ocean (getMarine : ℚ → ℚ → Option Marine)
    (fetch : ℚ → ℚ → FetchOutcome) (distCenter : ℚ → ℚ → ℚ)
    (distTarget : Option (ℚ → ℚ → ℚ)) (region_weather : Weather)
    (pts : List GridPoint) (cache : List ((ℚ × ℚ) × BathymetryResult))
    (stats : CollectStats) (hist : List (String × ℕ)) (e : EnrichedPoint)
    (he : e ∈ (processPoints getMarine fetch distCenter distTarget region_weather
        pts cache stats hist).analyzed_points) :
    e.bathymetry.is_ocean = true := by
  induction pts generalizing cache stats hist with
  | nil => simp [processPoints] at he
  | cons point rest ih =>
    rw [processPoints] at he
    by_cases hoc :
        (get_bathymetry fetch cache point.lat point.lon).1.is_ocean = false
    · rw [if_pos hoc] at he
      exact ih _ _ _ he
    · rw [if_neg hoc] at he
      rcases List.mem_cons.mp he with h | h
      · subst h
        simpa using Bool.not_eq_false _ |>.mp hoc
      · exact ih _ _ _ h

/-- C1 witness: a one-point grid over ocean water (elevation −100 m) yields a
single analyzed point, and it is flagged as ocean. -/
theorem c1_witness :
    (EnrichedPoint.mk 0 0 {} none
        ⟨some 100, some (100 * M_TO_FT), true, false, "OpenTopoData GEBCO2020"⟩
        0 none).bathymetry.is_ocean = true :=
  c1_analyzed_points_are_ocean (fun _ _ => none) (fun _ _ => .ok [.num (-100)])
    (fun _ _ => 0) none {} [⟨0, 0⟩] [] ⟨0, 0⟩ []
    (EnrichedPoint.mk 0 0 {} none
      ⟨some 100, some (100 * M_TO_FT), true, false, "OpenTopoData GEBCO2020"⟩
      0 none)
    (by norm_num [processPoints, get_bathymetry, cacheLookup, computeBathymetry])

/-- C5 counterexample: the loop body of `collect` calls `get_marine_data`
before `get_bathymetry` (collector.py lines 252–253) and does so for every
retained grid point, so on a one-point grid over land (elevation +5 m) the
marine lookup is still performed: the trace shows the marine fetch, and it
precedes the bathymetry lookup, while the point is counted as land and never
analyzed. -/
theorem c5_counterexample :
    (processPoints (fun _ _ => some {}) (fun _ _ => .ok [.num 5]) (fun _ _ => 0)
        none {} [⟨0, 0⟩] [] ⟨0, 0⟩ []).trace =
      [.marineFetch 0 0, .bathyFetch 0 0] ∧
    (processPoints (fun _ _ => some {}) (fun _ _ => .ok [.num 5]) (fun _ _ => 0)
        none {} [⟨0, 0⟩] [] ⟨0, 0⟩ []).analyzed_points = [] ∧
    (processPoints (fun _ _ => some {}) (fun _ _ => .ok [.num 5]) (fun _ _ => 0)
        none {} [⟨0, 0⟩] [] ⟨0, 0⟩ []).stats.land_points = 1 ∧
    (computeBathymetry (.ok [.num 5])).is_ocean = false := by
  refine ⟨?_, ?_, ?_, ?_⟩ <;>
    norm_num [processPoints, get_bathymetry, cacheLookup, computeBathymetry]

/-- C5 amended: for every retained grid point — ocean or land alike — the
collection loop performs exactly two per-point external lookups, the marine
fetch first and the bathymetry lookup second; land points are skipped only
after both calls have been made. -/
theorem c5_amended_marine_before_bathymetry (getMarine : ℚ → ℚ → Option Marine)
    (fetch : ℚ → ℚ → FetchOutcome) (distCenter : ℚ → ℚ → ℚ)
    (distTarget : Option (ℚ → ℚ → ℚ)) (region_weather : Weather)
    (pts : List GridPoint) (cache : List ((ℚ × ℚ) × BathymetryResult))
    (stats : CollectStats) (hist : List (String × ℕ)) :
    (processPoints getMarine fetch distCenter distTarget region_weather
        pts cache stats hist).trace =
      pts.flatMap fun p => [.marineFetch p.lat p.lon, .bathyFetch p.lat p.lon] := by
  induction pts generalizing cache stats hist with
  | nil => simp [processPoints]
  | cons point rest ih =>
    rw [processPoints]
    by_cases hoc :
        (get_bathymetry fetch cache point.lat point.lon).1.is_ocean = false
    · rw [if_pos hoc]
      simp [ih]
    · rw [if_neg hoc]
      simp [ih]

/-! ## analyzer.py

`NavalOperationsAnalyzer` scores analyzed points.  A point reaches the scorer
as a dict; its optional blocks are modelled with `Option`.  `float(d.get(k,
v))` is `Option.getD`, and `float(d.get(k, v) or v)` is `pyOr` (with `v ≠ 0`
the latter also replaces an explicit `0`/`None` value by `v`; with `v = 0`
the two coincide).  Python's `round(x, 1)` is `round1` (round half to even at
one decimal). -/

/-- The `weather_thresholds` dict as the scorer reads it. -/
structure Thresholds where
  max_wind_speed_kts : Option ℚ := none
  min_visibility_m : Option ℚ := none
  max_cloud_cover_pct : Option ℚ := none
  max_wave_height_ft : Option ℚ := none
deriving DecidableEq

/-- A vessel record, restricted to the fields the scorer reads. -/
structure Vessel where
  min_depth_ft : Option ℚ := none
  has_flight_deck : Bool := false
  has_5_inch_gun : Bool := false
deriving DecidableEq

/-- The analyzer's view of one analyzed point. -/
structure PointRecord where
  lat : ℚ
  lon : ℚ
  weather : Option Weather := none
  marine : Option Marine := none
  bathymetry : Option BathymetryResult := none
  distance_from_center_nm : Option ℚ := none
  distance_from_target_nm : Option ℚ := none
deriving DecidableEq

/-- The inputs fields `NavalOperationsAnalyzer` reads. -/
structure AnalyzerInputs where
  weather_thresholds : Thresholds := {}
  vessels : List Vessel := []
  primary_mission : String := "balanced"
  min_distance_shore_nm : Option ℚ := none
  max_distance_shore_nm : Option ℚ := none
deriving DecidableEq

/-- The `ScoreBreakdown` dataclass. -/
structure ScoreBreakdown where
  overall : ℚ
  weather : ℚ
  sea_state : ℚ
  depth : ℚ
  flight_ops : ℚ
  fire_support : ℚ
  distance : ℚ
deriving DecidableEq

/-- Python `round(x, 1)`. -/
def round1 (x : ℚ) : ℚ := (roundHalfEven (x * 10) : ℚ) / 10

/-- Embedding of `NavalOperationsAnalyzer.score_weather`. -/
def score_weather (th : Thresholds) (weather : Option Weather) : ℚ :=
  match weather with
  | none => 0
  | some w =>
      let max_wind := th.max_wind_speed_kts.getD 25
      let min_vis_m := th.min_visibility_m.getD 5000
      let max_cloud := th.max_cloud_cover_pct.getD 75
      let wind := w.wind_speed_10m.getD 0
      let vis := w.visibility.getD 0
      let cloud := w.cloud_cover.getD 0
      let precip := w.precipitation.getD 0
      if wind > max_wind then 0
      else if vis < min_vis_m then 0
      else
        let cloud_penalty := if cloud > max_cloud then 40 else cloud / max 1 max_cloud * 20
        let s := 100 - wind / max_wind * 30 - cloud_penalty
        let s := if precip > 5 then s - 30 else if precip > 0 then s - 10 else s
        let s := s + min 10 ((vis - min_vis_m) / max 1 min_vis_m * 10)
        max 0 (min 100 s)

/-- Embedding of `NavalOperationsAnalyzer.score_sea_state`. -/
def score_sea_state (th : Thresholds) (marine : Option Marine) : ℚ :=
  match marine with
  | none => 50
  | some m =>
      let max_wave := th.max_wave_height_ft.getD 6
      let wave := pyOr m.wave_height 0
      let swell := pyOr m.swell_wave_height 0
      let current := pyOr m.ocean_current_velocity 0
      if wave > max_wave then 0
      else
        let s := 100 - wave / max_wave * 40
        let s := if swell > 6 then s - 20 else if swell > 3 then s - 10 else s
        let s := if current > 2 then s - 15 else s
        max 0 (min 100 s)

/-- The per-vessel `min_depth_ft` requirement `float(v.get("min_depth_ft",
20) or 20)`. -/
def vesselMinDepth (v : Vessel) : ℚ := pyOr v.min_depth_ft 20

/-- The formation-wide requirement: `max(...)` over the vessels, or `20.0`
for an empty formation. -/
def minDepthRequired (vessels : List Vessel) : ℚ :=
  match vessels with
  | [] => 20
  | v :: vs => vs.foldl (fun acc w => max acc (vesselMinDepth w)) (vesselMinDepth v)

/-- Embedding of `NavalOperationsAnalyzer.score_depth`. -/
def score_depth (bathy : Option BathymetryResult) (vessels : List Vessel) : ℚ :=
  match bathy with
  | none => 50
  | some b =>
      if b.is_ocean = false then 0
      else
        let depth_ft := pyOr b.depth_ft 0
        let min_depth_required := minDepthRequired vessels
        if depth_ft < min_depth_required then 0
        else if min_depth_required ≤ depth_ft ∧ depth_ft ≤ 300 then 100
        else if depth_ft > 300 then 80
        else max 0 (min 100 (depth_ft / 50 * 100))

/-- Embedding of `NavalOperationsAnalyzer.score_flight_ops`. -/
def score_flight_ops (weather : Option Weather) (marine : Option Marine)
    (vessels : List Vessel) : ℚ :=
  if !(vessels.any fun v => v.has_flight_deck) then 0
  else
    match weather, marine with
    | some w, some m =>
        let wind := pyOr w.wind_speed_10m 0
        let vis := pyOr w.visibility 0
        let cloud := pyOr w.cloud_cover 0
        let precip := pyOr w.precipitation 0
        let wave := pyOr m.wave_height 0
        let afterWind : Option ℚ :=
          if wind < 10 then some (100 - 20)
          else if wind ≤ 25 then some 100
          else if wind ≤ 35 then some (100 - 30)
          else none
        match afterWind with
        | none => 0
        | some s =>
            if vis < 3000 then 0
            else
              let s := if vis < 5000 then s - 30 else s
              let s := if cloud > 80 then s - 30 else if cloud > 50 then s - 15 else s
              let s := if wave > 6 then s - 40 else if wave > 4 then s - 20 else s
              let s := if precip > 2 then s - 40 else if precip > 0 then s - 20 else s
              max 0 (min 100 s)
    | _, _ => 0

/-- Constant `DEFAULT_GUN_RANGE_NM` from `analyzer.py`. -/
def DEFAULT_GUN_RANGE_NM : ℚ := 13

/-- Embedding of `NavalOperationsAnalyzer._max_gun_range_nm`. -/
def max_gun_range_nm (vessels : List Vessel) : ℚ :=
  if vessels.any (fun v => v.has_5_inch_gun) then DEFAULT_GUN_RANGE_NM else 0

/-- Embedding of `NavalOperationsAnalyzer.score_fire_support`; `hasTarget` is whether
`self.data` carries a resolved target. -/
def score_fire_support (hasTarget : Bool) (point : PointRecord)
    (vessels : List Vessel) : ℚ :=
  let max_gun := max_gun_range_nm vessels
  if max_gun ≤ 0 then 0
  else if !hasTarget then 70
  else
    let dist := pyOr point.distance_from_target_nm 1000000000
    let base : Option ℚ :=
      if dist ≤ max_gun * (7/10) then some 100
      else if dist ≤ max_gun then some 80
      else none
    match base with
    | none => 0
    | some s =>
        let depth := pyOr (point.bathymetry.bind fun b => b.depth_ft) 0
        let s := if depth < 30 then s - 40 else s
        max 0 (min 100 s)

/-- Embedding of `NavalOperationsAnalyzer.score_distance_constraints`. -/
def score_distance_constraints (inp : AnalyzerInputs) (point : PointRecord) : ℚ :=
  let dist := pyOr point.distance_from_center_nm 0
  let min_dist := pyOr inp.min_distance_shore_nm 5
  let max_dist := pyOr inp.max_distance_shore_nm 50
  if dist < min_dist ∨ dist > max_dist then 20 else 100

/-- A mission weight vector over the six sub-scores. -/
structure Weights where
  weather : ℚ
  sea_state : ℚ
  depth : ℚ
  flight_ops : ℚ
  fire_support : ℚ
  distance : ℚ
deriving DecidableEq

/-- Embedding of `NavalOperationsAnalyzer._weights_for_mission`: three missions carry their
own vector; everything else — including the defined missions
`maritime_interdiction` and `humanitarian_assistance` and any unrecognized
name — falls to the balanced default. -/
def weights_for_mission (mission : String) : Weights :=
  if mission = "amphibious_landing" then
    ⟨15/100, 25/100, 15/100, 20/100, 15/100, 10/100⟩
  else if mission = "naval_gunfire_support" then
    ⟨15/100, 15/100, 15/100, 5/100, 40/100, 10/100⟩
  else if mission = "flight_operations" then
    ⟨20/100, 25/100, 15/100, 30/100, 5/100, 5/100⟩
  else
    ⟨20/100, 20/100, 15/100, 15/100, 20/100, 10/100⟩

/-- Sum of a weight vector's six components. -/
def sumWeights (w : Weights) : ℚ :=
  w.weather + w.sea_state + w.depth + w.flight_ops + w.fire_support + w.distance

/-- Embedding of `NavalOperationsAnalyzer.calculate_scores`. -/
def calculate_scores (inp : AnalyzerInputs) (hasTarget : Bool)
    (point : PointRecord) : ScoreBreakdown :=
  let vessels := inp.vessels
  let weather := score_weather inp.weather_thresholds point.weather
  let sea := score_sea_state inp.weather_thresholds point.marine
  let depth := score_depth point.bathymetry vessels
  let flight := score_flight_ops point.weather point.marine vessels
  let fire := score_fire_support hasTarget point vessels
  let dist := score_distance_constraints inp point
  let w := weights_for_mission inp.primary_mission
  let overall := weather * w.weather + sea * w.sea_state + depth * w.depth +
    flight * w.flight_ops + fire * w.fire_support + dist * w.distance
  { overall := round1 overall
    weather := round1 weather
    sea_state := round1 sea
    depth := round1 depth
    flight_ops := round1 flight
    fire_support := round1 fire
    distance := round1 dist }

/-- C10: the depth sub-score only ever takes the four values 0, 50, 80, 100 —
50 for missing bathymetry, 0 for non-ocean or depth below the formation's
maximum `min_depth_ft` requirement, 100 for depth between the requirement and
300 ft, 80 for depth beyond 300 ft (given it meets the requirement); the
linear `(depth/50)·100` branch is unreachable, since any depth at or above
the requirement falls in the 100 or 80 case and any depth below it already
returned 0. -/
theorem c10_depth_score_four_values (bathy : Option BathymetryResult)
    (vessels : List Vessel) :
    (score_depth bathy vessels = 0 ∨ score_depth bathy vessels = 50 ∨
      score_depth bathy vessels = 80 ∨ score_depth bathy vessels = 100) ∧
    (bathy = none → score_depth bathy vessels = 50) ∧
    (∀ b, bathy = some b → b.is_ocean = false → score_depth bathy vessels = 0) ∧
    (∀ b, bathy = some b → b.is_ocean = true →
      pyOr b.depth_ft 0 < minDepthRequired vessels →
      score_depth bathy vessels = 0) ∧
    (∀ b, bathy = some b → b.is_ocean = true →
      minDepthRequired vessels ≤ pyOr b.depth_ft 0 → pyOr b.depth_ft 0 ≤ 300 →
      score_depth bathy vessels = 100) ∧
    (∀ b, bathy = some b → b.is_ocean = true →
      minDepthRequired vessels ≤ pyOr b.depth_ft 0 → 300 < pyOr b.depth_ft 0 →
      score_depth bathy vessels = 80) := by
  refine ⟨?_, ?_, ?_, ?_, ?_, ?_⟩
  · match bathy with
    | none => simp [score_depth]
    | some b =>
        simp only [score_depth]
        split_ifs with h1 h2 h3 h4
        · exact Or.inl rfl
        · exact Or.inl rfl
        · exact Or.inr (Or.inr (Or.inr rfl))
        · exact Or.inr (Or.inr (Or.inl rfl))
        · exact absurd (lt_of_not_le fun hle => h3 ⟨not_lt.mp h2, hle⟩) h4
  · rintro rfl; rfl
  · rintro b rfl hoc
    simp [score_depth, hoc]
  · rintro b rfl hoc hlt
    simp only [score_depth, hoc]
    simp [hlt]
  · rintro b rfl hoc hge hle
    simp only [score_depth, hoc]
    rw [if_neg (by simp), if_neg (not_lt.mpr hge),
      if_pos ⟨hge, hle⟩]
  · rintro b rfl hoc hge hgt
    simp only [score_depth, hoc]
    rw [if_neg (by simp), if_neg (not_lt.mpr hge),
      if_neg (fun hb => absurd hgt (not_lt.mpr hb.2)), if_pos hgt]

/-- C10 witness: ocean water of 164 ft over an empty formation (requirement
20 ft) scores exactly 100. -/
theorem c10_witness :
    score_depth
      (some ⟨some 50, some 164, true, false, "OpenTopoData GEBCO2020"⟩) [] = 100 :=
  (c10_depth_score_four_values
      (some ⟨some 50, some 164, true, false, "OpenTopoData GEBCO2020"⟩) []).2.2.2.2.1
    ⟨some 50, some 164, true, false, "OpenTopoData GEBCO2020"⟩ rfl rfl
    (by norm_num [pyOr, minDepthRequired]) (by norm_num [pyOr])

/-- C6 counterexample: with the default thresholds (max wind 25 kt, min
visibility 5000 m, max cloud 75 %), a snapshot with wind exactly 25 kt and
visibility exactly 5000 m but cloud 100 % and precipitation 10 scores
100 − 30 − 40 − 30 + 0 = 0 — wind at the threshold with visibility at least
the minimum does not guarantee a positive weather sub-score. -/
theorem c6_counterexample :
    (Weather.mk none none (some 10) none (some 100) (some 5000) (some 25) none
        none).wind_speed_10m.getD 0 =
      (Thresholds.mk (some 25) (some 5000) (some 75) none).max_wind_speed_kts.getD 25 ∧
    (Thresholds.mk (some 25) (some 5000) (some 75) none).min_visibility_m.getD 5000 ≤
      (Weather.mk none none (some 10) none (some 100) (some 5000) (some 25) none
        none).visibility.getD 0 ∧
    score_weather (Thresholds.mk (some 25) (some 5000) (some 75) none)
      (some (Weather.mk none none (some 10) none (some 100) (some 5000) (some 25)
        none none)) = 0 := by
  refine ⟨rfl, by norm_num, ?_⟩
  norm_num [score_weather]

/-- C6 amended: if the wind exceeds `max_wind_speed_kts` the weather sub-score
is exactly 0; and with wind exactly at `max_wind_speed_kts` and visibility at
least `min_visibility_m`, the sub-score is strictly positive provided the
input is not simultaneously in the worst remaining case — i.e. provided cloud
cover is within `max_cloud_cover_pct`, or precipitation is at most 5, or
visibility strictly exceeds the minimum.  (In that remaining case —
over-threshold cloud, heavy precipitation, visibility exactly at the minimum —
the score is exactly 0, as the counterexample shows.) -/
theorem c6_amended_wind_boundary (th : Thresholds) (w : Weather)
    (hmw : 0 < th.max_wind_speed_kts.getD 25) :
    (th.max_wind_speed_kts.getD 25 < w.wind_speed_10m.getD 0 →
      score_weather th (some w) = 0) ∧
    (w.wind_speed_10m.getD 0 = th.max_wind_speed_kts.getD 25 →
      th.min_visibility_m.getD 5000 ≤ w.visibility.getD 0 →
      (w.cloud_cover.getD 0 ≤ th.max_cloud_cover_pct.getD 75 ∨
        w.precipitation.getD 0 ≤ 5 ∨
        th.min_visibility_m.getD 5000 < w.visibility.getD 0) →
      0 < score_weather th (some w)) := by
  set mw := th.max_wind_speed_kts.getD 25 with hmwdef
  set mv := th.min_visibility_m.getD 5000 with hmvdef
  set mc := th.max_cloud_cover_pct.getD 75 with hmcdef
  set wind := w.wind_speed_10m.getD 0 with hwinddef
  set vis := w.visibility.getD 0 with hvisdef
  set cloud := w.cloud_cover.getD 0 with hclouddef
  set precip := w.precipitation.getD 0 with hprecipdef
  constructor
  · intro hgt
    simp only [score_weather, ← hmwdef, ← hwinddef]
    rw [if_pos hgt]
  · intro hwind hvis hcase
    simp only [score_weather, ← hmwdef, ← hmvdef, ← hmcdef, ← hwinddef,
      ← hvisdef, ← hclouddef, ← hprecipdef]
    rw [if_neg (by rw [hwind]; exact lt_irrefl mw), if_neg (not_lt.mpr hvis)]
    set pen := if cloud > mc then (40 : ℚ) else cloud / max 1 mc * 20 with hpendef
    set bonus := min 10 ((vis - mv) / max 1 mv * 10) with hbonusdef
    have hww : wind / mw * 30 = 30 := by
      rw [hwind, div_self (ne_of_gt hmw)]; ring
    have hmv1 : (0 : ℚ) < max 1 mv := lt_of_lt_of_le one_pos (le_max_left 1 mv)
    have hmc1 : (0 : ℚ) < max 1 mc := lt_of_lt_of_le one_pos (le_max_left 1 mc)
    have hbonus0 : (0 : ℚ) ≤ bonus := by
      rw [hbonusdef]
      apply le_min (by norm_num)
      have : (0 : ℚ) ≤ (vis - mv) / max 1 mv := div_nonneg (by linarith) hmv1.le
      linarith
    have hpen40 : pen ≤ 40 := by
      rw [hpendef]
      split_ifs with hc
      · exact le_refl _
      · have : cloud / max 1 mc ≤ 1 :=
          (div_le_one hmc1).mpr (le_trans (not_lt.mp hc) (le_max_right 1 mc))
        linarith
    have key : 0 < (if precip > 5 then 100 - wind / mw * 30 - pen - 30
        else if precip > 0 then 100 - wind / mw * 30 - pen - 10
        else 100 - wind / mw * 30 - pen) + bonus := by
      rcases hcase with hcl | hpr | hvgt
      · have hpen20 : pen ≤ 20 := by
          rw [hpendef, if_neg (not_lt.mpr hcl)]
          have : cloud / max 1 mc ≤ 1 :=
            (div_le_one hmc1).mpr (le_trans hcl (le_max_right 1 mc))
          linarith
        split_ifs <;> linarith
      · split_ifs with h5 h0
        · exact absurd hpr (not_le.mpr h5)
        · linarith
        · linarith
      · have hbpos : (0 : ℚ) < bonus := by
          rw [hbonusdef]
          apply lt_min (by norm_num)
          have : (0 : ℚ) < (vis - mv) / max 1 mv := div_pos (by linarith) hmv1
          linarith
        split_ifs <;> linarith
    calc (0 : ℚ) < min 100 _ := lt_min (by norm_num) key
      _ ≤ max 0 _ := le_max_right 0 _

/-- C6 witness: with the default thresholds, wind one unit over the limit
zeroes the weather score, and wind exactly at the limit with clear skies, no
precipitation and visibility at the minimum scores positively. -/
theorem c6_witness :
    ((Thresholds.mk (some 25) (some 5000) (some 75) none).max_wind_speed_kts.getD 25 <
        (Weather.mk none none (some 0) none (some 0) (some 5000) (some 26) none
          none).wind_speed_10m.getD 0 →
      score_weather (Thresholds.mk (some 25) (some 5000) (some 75) none)
        (some (Weather.mk none none (some 0) none (some 0) (some 5000) (some 26)
          none none)) = 0) ∧
    ((Weather.mk none none (some 0) none (some 0) (some 5000) (some 26) none
        none).wind_speed_10m.getD 0 =
        (Thresholds.mk (some 25) (some 5000) (some 75) none).max_wind_speed_kts.getD 25 →
      (Thresholds.mk (some 25) (some 5000) (some 75) none).min_visibility_m.getD 5000 ≤
        (Weather.mk none none (some 0) none (some 0) (some 5000) (some 26) none
          none).visibility.getD 0 →
      ((Weather.mk none none (some 0) none (some 0) (some 5000) (some 26) none
          none).cloud_cover.getD 0 ≤
          (Thresholds.mk (some 25) (some 5000) (some 75) none).max_cloud_cover_pct.getD 75 ∨
        (Weather.mk none none (some 0) none (some 0) (some 5000) (some 26) none
          none).precipitation.getD 0 ≤ 5 ∨
        (Thresholds.mk (some 25) (some 5000) (some 75) none).min_visibility_m.getD 5000 <
          (Weather.mk none none (some 0) none (some 0) (some 5000) (some 26) none
            none).visibility.getD 0) →
      0 < score_weather (Thresholds.mk (some 25) (some 5000) (some 75) none)
        (some (Weather.mk none none (some 0) none (some 0) (some 5000) (some 26)
          none none))) :=
  c6_amended_wind_boundary (Thresholds.mk (some 25) (some 5000) (some 75) none)
    (Weather.mk none none (some 0) none (some 0) (some 5000) (some 26) none none)
    (by norm_num)

/-- C7: every mission's weight vector sums to 1 (so certainly within 1e-9 of
1.0); any mission name other than the three specially-cased ones — in
particular any unrecognized name — gets the balanced default vector;
`naval_gunfire_support` weights fire support at 0.40 and `flight_operations`
weights flight ops at 0.30; and the overall score is the weighted sum of the
six sub-scores rounded to one decimal. -/
theorem c7_mission_weights :
    (∀ mission : String,
      |sumWeights (weights_for_mission mission) - 1| ≤ 1 / 1000000000) ∧
    (∀ mission : String, mission ≠ "amphibious_landing" →
      mission ≠ "naval_gunfire_support" → mission ≠ "flight_operations" →
      weights_for_mission mission =
        ⟨20/100, 20/100, 15/100, 15/100, 20/100, 10/100⟩) ∧
    (weights_for_mission "naval_gunfire_support").fire_support = 40 / 100 ∧
    (weights_for_mission "flight_operations").flight_ops = 30 / 100 ∧
    (∀ (inp : AnalyzerInputs) (hasTarget : Bool) (point : PointRecord),
      (calculate_scores inp hasTarget point).overall =
        round1 (score_weather inp.weather_thresholds point.weather *
            (weights_for_mission inp.primary_mission).weather +
          score_sea_state inp.weather_thresholds point.marine *
            (weights_for_mission inp.primary_mission).sea_state +
          score_depth point.bathymetry inp.vessels *
            (weights_for_mission inp.primary_mission).depth +
          score_flight_ops point.weather point.marine inp.vessels *
            (weights_for_mission inp.primary_mission).flight_ops +
          score_fire_support hasTarget point inp.vessels *
            (weights_for_mission inp.primary_mission).fire_support +
          score_distance_constraints inp point *
            (weights_for_mission inp.primary_mission).distance)) := by
  refine ⟨?_, ?_, ?_, ?_, ?_⟩
  · intro mission
    unfold weights_for_mission sumWeights
    split_ifs <;> norm_num
  · intro mission h1 h2 h3
    unfold weights_for_mission
    rw [if_neg h1, if_neg h2, if_neg h3]
  · unfold weights_for_mission
    rw [if_neg (by decide), if_pos rfl]
  · unfold weights_for_mission
    rw [if_neg (by decide), if_neg (by decide), if_pos rfl]
  · intro inp hasTarget point
    rfl

/-- C7 witness: an unrecognized mission name receives the balanced default
vector. -/
theorem c7_witness :
    weights_for_mission "surface_warfare" =
      ⟨20/100, 20/100, 15/100, 15/100, 20/100, 10/100⟩ :=
  c7_mission_weights.2.1 "surface_warfare" (by decide) (by decide) (by decide)

/-! ## analyzer.py — ranking -/

/-- One record of the scored list `analyze` builds per point. -/
structure ScoredPoint where
  lat : ℚ
  lon : ℚ
  scores : ScoreBreakdown
  weather : Option Weather
  marine : Option Marine
  bathymetry : Option BathymetryResult
  distance_from_center_nm : Option ℚ
  distance_from_target_nm : Option ℚ
deriving DecidableEq

/-- The record `analyze` appends for one point. -/
def mkScored (inp : AnalyzerInputs) (hasTarget : Bool) (p : PointRecord) :
    ScoredPoint :=
  { lat := p.lat
    lon := p.lon
    scores := calculate_scores inp hasTarget p
    weather := p.weather
    marine := p.marine
    bathymetry := p.bathymetry
    distance_from_center_nm := p.distance_from_center_nm
    distance_from_target_nm := p.distance_from_target_nm }

/-- Embedding of `NavalOperationsAnalyzer.analyze`: score every point, then
`scored.sort(key=..., reverse=True)` — a stable sort descending on
`scores.overall`, embedded as `List.mergeSort` with the matching total
preorder (any two stable sorts under the same preorder agree). -/
def analyze (inp : AnalyzerInputs) (hasTarget : Bool)
    (points : List PointRecord) : List ScoredPoint :=
  (points.map (mkScored inp hasTarget)).mergeSort fun a b =>
    decide (b.scores.overall ≤ a.scores.overall)

/-- Stability of the descending merge sort, in filter form: the elements
whose key equals any fixed value appear in the sorted list exactly in their
original order. -/
theorem filter_key_mergeSort {α : Type} (k : α → ℚ) (l : List α) (v : ℚ) :
    ((l.mergeSort fun a b => decide (k b ≤ k a)).filter fun a => decide (k a = v)) =
      l.filter fun a => decide (k a = v) := by
  have trans : ∀ a b c : α, (decide (k b ≤ k a)) → (decide (k c ≤ k b)) →
      (decide (k c ≤ k a)) := by
    intro a b c hab hbc
    simp only [decide_eq_true_eq] at *
    exact le_trans hbc hab
  have total : ∀ a b : α, (decide (k b ≤ k a)) || (decide (k a ≤ k b)) := by
    intro a b
    rcases le_total (k b) (k a) with h | h <;> simp [h]
  have hpair : (l.filter fun a => decide (k a = v)).Pairwise
      (fun a b => (decide (k b ≤ k a)) = true) := by
    apply List.pairwise_of_forall_mem_list
    intro a ha b hb
    have ha' := List.of_mem_filter ha
    have hb' := List.of_mem_filter hb
    simp only [decide_eq_true_eq] at ha' hb' ⊢
    rw [ha', hb']
  have hsub : List.Sublist (l.filter fun a => decide (k a = v))
      (l.mergeSort fun a b => decide (k b ≤ k a)) :=
    List.sublist_mergeSort trans total hpair (List.filter_sublist l)
  have h3 : List.Sublist (l.filter fun a => decide (k a = v))
      ((l.mergeSort fun a b => decide (k b ≤ k a)).filter fun a => decide (k a = v)) := by
    have := hsub.filter fun a => decide (k a = v)
    simpa [List.filter_filter] using this
  have hperm : List.Perm
      ((l.mergeSort fun a b => decide (k b ≤ k a)).filter fun a => decide (k a = v))
      (l.filter fun a => decide (k a = v)) :=
    (List.mergeSort_perm l _).filter _
  exact (h3.eq_of_length hperm.length_eq.symm).symm

/-- C8: the scored list produced by `analyze` is sorted descending on the
rounded overall score, and points with equal overall scores keep their
original collection order — for every value `v`, the equal-`v` slice of the
output equals the equal-`v` slice of the input in its original order (the
sort is stable). -/
theorem c8_analyze_sorted_stable (inp : AnalyzerInputs) (hasTarget : Bool)
    (points : List PointRecord) :
    (analyze inp hasTarget points).Pairwise
      (fun a b => b.scores.overall ≤ a.scores.overall) ∧
    ∀ v : ℚ,
      ((analyze inp hasTarget points).filter
          fun s : ScoredPoint => decide (s.scores.overall = v)) =
        ((points.map (mkScored inp hasTarget)).filter
          fun s : ScoredPoint => decide (s.scores.overall = v)) := by
  constructor
  · have trans : ∀ a b c : ScoredPoint,
        (decide (b.scores.overall ≤ a.scores.overall)) →
        (decide (c.scores.overall ≤ b.scores.overall)) →
        (decide (c.scores.overall ≤ a.scores.overall)) := by
      intro a b c hab hbc
      simp only [decide_eq_true_eq] at *
      exact le_trans hbc hab
    have total : ∀ a b : ScoredPoint,
        (decide (b.scores.overall ≤ a.scores.overall)) ||
          (decide (a.scores.overall ≤ b.scores.overall)) := by
      intro a b
      rcases le_total (b.scores.overall) (a.scores.overall) with h | h <;> simp [h]
    have := List.sorted_mergeSort trans total
      ((points.map (mkScored inp hasTarget)))
    refine this.imp ?_
    intro a b h
    simpa using h
  · intro v
    exact filter_key_mergeSort (fun s : ScoredPoint => s.scores.overall) _ v

end NavalOps
